import Mathlib

/-!
Shallow embedding of `Sources/parakeet_daemon.py` (the Parakeet transcription
daemon) and proofs about its protocol and lifecycle behaviour.

Modelling conventions:
* Python exceptions become `Except String` results; a `try/except` block
  becomes a `match` on the `Except` value.
* The decoded form of a stdin line (after `readline`, `strip`, and
  `json.loads`) is the `LineRead` type; end of stream is the end of the
  input list.
* JSON values are the `Json` type; a decoded object carries its key/value
  entries (keys unique, as produced by `json.loads`).
* The external inference engine (`from_pretrained`, `get_logmel`,
  `model.generate`) is a capability record: `Loader` holds the outcome of
  the offline and of the online load attempt, `Model` holds the
  feature-extraction and generation capabilities.
* Raw float32 PCM samples are represented by their 32-bit patterns as
  naturals; the daemon never inspects sample values, only the length.
* `traceback.format_exc()` is modelled as a deterministic diagnostic
  string derived from the active exception message.
-/

namespace Parakeet

/-- A JSON value as produced by `json.loads`. Numbers are modelled as
integers (no claim computes with a float). -/
inductive Json where
  | null
  | bool (b : Bool)
  | num (n : Int)
  | str (s : String)
  | arr (elems : List Json)
  | obj (entries : List (String × Json))

/-- The Python type name of a decoded JSON value, as it appears in Python
error messages such as AttributeError. -/
def Json.pyType : Json → String
  | .null => "NoneType"
  | .bool _ => "bool"
  | .num _ => "int"
  | .str _ => "str"
  | .arr _ => "list"
  | .obj _ => "dict"

/-- Whether the value is a decoded JSON object (a Python dict). -/
def Json.isObj : Json → Bool
  | .obj _ => true
  | _ => false

/-- Dict lookup on the entry list of a decoded object (keys are unique). -/
def jsonLookup (entries : List (String × Json)) (key : String) : Option Json :=
  match entries with
  | [] => none
  | kv :: rest => if kv.1 == key then some kv.2 else jsonLookup rest key

/-- `request.get(key)`: on a dict, the value or `None`; on any other
value, an `AttributeError` (source line 203 / 208 can raise here). -/
def Json.get (v : Json) (key : String) : Except String (Option Json) :=
  match v with
  | .obj entries => Except.ok (jsonLookup entries key)
  | other =>
      Except.error
        ("'" ++ other.pyType ++ "' object has no attribute '" ++ key ++ "'")

/-- `key in v` for a decoded JSON value, following Python membership
semantics: key test on a dict, element test on a list, substring test on a
string, `TypeError` otherwise (source line 156). -/
def jsonContains (v : Json) (key : String) : Except String Bool :=
  match v with
  | .obj entries => Except.ok (entries.any (fun kv => kv.1 == key))
  | .arr elems =>
      Except.ok (elems.any (fun e =>
        match e with
        | .str t => t == key
        | _ => false))
  | .str s => Except.ok (decide (1 < (s.splitOn key).length))
  | other =>
      Except.error ("argument of type '" ++ other.pyType ++ "' is not iterable")

/-- `v[key]` subscription with a string key (source line 159), raising the
Python errors a non-dict would produce. -/
def jsonIndex (v : Json) (key : String) : Except String Json :=
  match v with
  | .obj entries =>
      match jsonLookup entries key with
      | some x => Except.ok x
      | none => Except.error ("KeyError: '" ++ key ++ "'")
  | .arr _ => Except.error "list indices must be integers or slices, not str"
  | .str _ => Except.error "string indices must be integers"
  | other =>
      Except.error ("'" ++ other.pyType ++ "' object is not subscriptable")

/-- `request.get("command") == s` (a missing key or a non-string value
compares unequal to the string literal). -/
def optCmdIs (cmd : Option Json) (s : String) : Bool :=
  match cmd with
  | some (Json.str t) => t == s
  | _ => false

/-- One result object of the inference engine, as inspected by
`transcribe_audio` through `hasattr`: each optional field is present
exactly when `hasattr` answers true; `strRepr` is the object's `str()`
rendering, used when a list element has no `text` attribute. -/
structure ResultObj where
  text : Option String
  texts : Option (List String)
  language : Option String
  confidence : Option Int
  strRepr : String

/-- A mapping returned by the engine, as inspected through `in` /
`.get`: each optional field is present exactly when the key is present. -/
structure ResultDict where
  text : Option String
  texts : Option (List String)
  language : Option String
  confidence : Option Int
  strRepr : String

/-- The value returned by `model.generate(mel)`. The four constructors
are the disjoint Python runtime types the extraction code distinguishes:
a list, a non-list non-dict object, a dict, and anything else (e.g. an
integer), carrying its `str()` rendering. -/
inductive EngineResult where
  | pylist (elems : List ResultObj)
  | obj (o : ResultObj)
  | pydict (d : ResultDict)
  | other (strRepr : String)

/-- `str(result)` for an engine result, used in the `AttributeError`
message of the unrecognized-shape branch (source line 134). -/
def EngineResult.pyStr : EngineResult → String
  | .pylist objs =>
      "[" ++ String.intercalate ", " (objs.map (fun o => o.strRepr)) ++ "]"
  | .obj o => o.strRepr
  | .pydict d => d.strRepr
  | .other s => s

/-- The result-shape normalization of `transcribe_audio` (source lines
110-134): the five recognized shapes in source order — non-empty list
(take the first element, falling back to `str` when it has no text
attribute), object with a `text` attribute, object with a non-empty
`texts` attribute, dict with a `text` key, dict with a non-empty `texts`
entry — and the `AttributeError` raised for every other shape. The
`texts` branches extract no language or confidence. -/
def extract_result : EngineResult → Except String (String × Option String × Option Int)
  | .pylist (result_obj :: _) =>
      Except.ok
        (match result_obj.text with
         | some t => t
         | none => result_obj.strRepr,
         result_obj.language, result_obj.confidence)
  | .obj o =>
      match o.text with
      | some t => Except.ok (t, o.language, o.confidence)
      | none =>
          match o.texts with
          | some (t :: _) => Except.ok (t, none, none)
          | _ =>
              Except.error ("Cannot extract text from result: " ++ (EngineResult.obj o).pyStr)
  | .pydict d =>
      match d.text with
      | some t => Except.ok (t, d.language, d.confidence)
      | none =>
          match d.texts with
          | some (t :: _) => Except.ok (t, none, none)
          | _ =>
              Except.error ("Cannot extract text from result: " ++ (EngineResult.pydict d).pyStr)
  | r => Except.error ("Cannot extract text from result: " ++ r.pyStr)

/-- The disjunction of the five branch guards of the normalizer: true
exactly on the recognized engine-result shapes. -/
def recognizedShape : EngineResult → Bool
  | .pylist elems => decide (0 < elems.length)
  | .obj o =>
      o.text.isSome ||
        (match o.texts with
         | some l => decide (0 < l.length)
         | none => false)
  | .pydict d =>
      d.text.isSome ||
        (match d.texts with
         | some l => decide (0 < l.length)
         | none => false)
  | .other _ => false

/-- `str.strip()`: remove whitespace characters from both ends. -/
def stripChars (l : List Char) : List Char :=
  ((l.dropWhile Char.isWhitespace).reverse.dropWhile Char.isWhitespace).reverse

/-- `text.strip() if text else ""` (source line 136); the only falsy
string is the empty one. -/
def pyStrip (text : String) : String :=
  if text = "" then "" else String.mk (stripChars text.data)

/-- The loaded model as a capability: `get_logmel` (feature extraction
with the model's preprocessor config) and `generate`, each able to raise. -/
structure Model where
  get_logmel : List Nat → Except String (List Nat)
  generate : List Nat → Except String EngineResult

/-- The `from_pretrained` capability: the outcome of the offline attempt
(`local_files_only=True`) and of the online attempt. -/
structure Loader where
  offline : Except String Model
  online : Except String Model

/-- The filesystem as seen by `load_raw_pcm`: `Path.exists`,
`os.access(..., os.R_OK)`, and `np.fromfile` returning the float32
samples (bit patterns) of the file. -/
structure FileSys where
  pathExists : String → Bool
  readable : String → Bool
  fromfile : String → List Nat

/-- A response record as built by the daemon (each constructor is one of
the dict literals printed by the source, with its `status` value). An
error carries `traceback` only when the source dict has that key. -/
inductive Response where
  | starting (message : String)
  | loading (message : String)
  | warning (message : String)
  | ready (message : String)
  | listening (message : String)
  | pong (message : String)
  | success (text : String) (language : Option String) (confidence : Option Int)
  | error (message : String) (traceback : Option String)
  | shutdown (message : String)
  | stopped (message : String)
deriving DecidableEq

/-- Stand-in for `traceback.format_exc()`: a diagnostic string derived
from the active exception's message. -/
def format_exc (e : String) : String :=
  "Traceback (most recent call last): " ++ e

/-- Message of the `FileNotFoundError` raised for a missing PCM file,
already wrapped by the `Error loading PCM data:` re-raise of
`load_raw_pcm` (source lines 72 and 85). -/
def pcmNotFound (p : String) : String :=
  "Error loading PCM data: PCM file not found: " ++ p

/-- Message of the `PermissionError` for an unreadable PCM file, wrapped
as above (source lines 74 and 85). -/
def pcmUnreadable (p : String) : String :=
  "Error loading PCM data: Cannot read PCM file: " ++ p

/-- Message of the `ValueError` for a zero-sample PCM file, wrapped as
above (source lines 80 and 85). -/
def pcmEmpty : String :=
  "Error loading PCM data: PCM file is empty"

/-- Message of the `TypeError` raised by `Path(p)` for a non-string path,
wrapped as above. -/
def pcmBadPathType (tyName : String) : String :=
  "Error loading PCM data: argument should be a str or an os.PathLike object, not " ++ tyName

/-- `load_raw_pcm` (source lines 66-85): existence, readability and
non-emptiness checks on the PCM file, every failure re-raised with the
`Error loading PCM data:` prefix. The unused `sample_rate` parameter of
the source is dropped. -/
def load_raw_pcm (fs : FileSys) (pcm_file_path : Json) : Except String (List Nat) :=
  match pcm_file_path with
  | Json.str p =>
      if fs.pathExists p = false then
        Except.error (pcmNotFound p)
      else if fs.readable p = false then
        Except.error (pcmUnreadable p)
      else
        let audio_data := fs.fromfile p
        if audio_data.length = 0 then
          Except.error pcmEmpty
        else Except.ok audio_data
  | other => Except.error (pcmBadPathType other.pyType)

/-- `transcribe_audio` (source lines 87-151): model presence check, PCM
load, feature extraction, generation, normalization, trimming; any
failure is caught and becomes an `error` response with the exception
message and a traceback string. -/
def transcribe_audio (model : Option Model) (fs : FileSys) (pcm_file_path : Json) : Response :=
  match model with
  | none => Response.error "Model not initialized" (some (format_exc "Model not initialized"))
  | some m =>
      match load_raw_pcm fs pcm_file_path with
      | Except.error e => Response.error e (some (format_exc e))
      | Except.ok audio_data =>
          match m.get_logmel audio_data with
          | Except.error e => Response.error e (some (format_exc e))
          | Except.ok mel =>
              match m.generate mel with
              | Except.error e => Response.error e (some (format_exc e))
              | Except.ok result =>
                  match extract_result result with
                  | Except.error e => Response.error e (some (format_exc e))
                  | Except.ok (text, detected_language, confidence) =>
                      Response.success (pyStrip text) detected_language confidence

/-- `process_request` (source lines 153-169): reject a request without
`pcm_path` before any filesystem access, otherwise transcribe; its own
catch-all wraps any exception of the validation step itself. -/
def process_request (model : Option Model) (fs : FileSys) (request_data : Json) : Response :=
  match jsonContains request_data "pcm_path" with
  | Except.error e =>
      Response.error ("Request processing failed: " ++ e) (some (format_exc e))
  | Except.ok false => Response.error "Missing 'pcm_path' in request" none
  | Except.ok true =>
      match jsonIndex request_data "pcm_path" with
      | Except.error e =>
          Response.error ("Request processing failed: " ++ e) (some (format_exc e))
      | Except.ok pcm_path => transcribe_audio model fs pcm_path

/-- `initialize_model` (source lines 44-64): offline attempt first; on
its failure a warning and exactly one online attempt; if that fails too,
the outer handler reports and the function returns no model. The returned
list is the sequence of status lines printed. -/
def initialize_model (ld : Loader) : List Response × Option Model :=
  match ld.offline with
  | Except.ok m =>
      ([Response.loading "Loading Parakeet v3 model...",
        Response.ready "Model loaded offline successfully"], some m)
  | Except.error offline_error =>
      match ld.online with
      | Except.ok m =>
          ([Response.loading "Loading Parakeet v3 model...",
            Response.warning ("Offline loading failed: " ++ offline_error),
            Response.loading "Falling back to online loading...",
            Response.ready "Model loaded online successfully"], some m)
      | Except.error e =>
          ([Response.loading "Loading Parakeet v3 model...",
            Response.warning ("Offline loading failed: " ++ offline_error),
            Response.loading "Falling back to online loading...",
            Response.error ("Failed to load model: " ++ e) none], none)

/-- One stdin line after `readline` + `strip` + `json.loads`:
whitespace-only, undecodable (with the `JSONDecodeError` message), or a
decoded JSON value. End of stream is the end of the input list. -/
inductive LineRead where
  | blank
  | badJson (decode_error : String)
  | json (request : Json)

/-- The request loop of `run_daemon` (source lines 182-226) as a function
from the remaining input lines to the responses it prints: blank lines
are skipped, decode failures answered and skipped, `ping` and `shutdown`
handled, everything else sent to `process_request`; an exception from the
command lookup on a non-dict is caught by the iteration's catch-all. -/
def daemonLoop (m : Model) (fs : FileSys) : List LineRead → List Response
  | [] => []
  | LineRead.blank :: rest => daemonLoop m fs rest
  | LineRead.badJson e :: rest =>
      Response.error ("Invalid JSON: " ++ e) none :: daemonLoop m fs rest
  | LineRead.json request :: rest =>
      match Json.get request "command" with
      | Except.error e =>
          Response.error ("Daemon error: " ++ e) (some (format_exc e))
            :: daemonLoop m fs rest
      | Except.ok cmd =>
          if optCmdIs cmd "ping" then
            Response.pong "Daemon is alive" :: daemonLoop m fs rest
          else if optCmdIs cmd "shutdown" then
            [Response.shutdown "Shutting down gracefully"]
          else
            process_request (some m) fs request :: daemonLoop m fs rest

/-- `run_daemon` (source lines 171-228): the startup announcement, model
initialization (exit code 1 without listening when it fails), the
listening announcement, the request loop, and the final stopped line;
the second component is the process exit status. -/
def run_daemon (ld : Loader) (fs : FileSys) (input : List LineRead) : List Response × Nat :=
  let init := initialize_model ld
  match init.2 with
  | none => (Response.starting "Parakeet daemon starting..." :: init.1, 1)
  | some m =>
      (Response.starting "Parakeet daemon starting..."
        :: init.1
        ++ Response.listening "Daemon ready for requests"
        :: daemonLoop m fs input
        ++ [Response.stopped "Daemon stopped"], 0)

/-- `json.dumps` of an optional string value: `None` serializes as
`null`, it is not omitted. -/
def optionStrToJson : Option String → Json
  | none => Json.null
  | some s => Json.str s

/-- `json.dumps` of an optional numeric value: `None` serializes as
`null`, it is not omitted. -/
def optionIntToJson : Option Int → Json
  | none => Json.null
  | some n => Json.num n

/-- `json.dumps` of a response: each constructor serializes exactly the
dict literal the source builds for it. The success dict (source lines
139-144) always carries the `language` and `confidence` keys, while an
error dict carries a `traceback` key only when the source dict has one. -/
def Response.toJson : Response → Json
  | .starting msg => Json.obj [("status", Json.str "starting"), ("message", Json.str msg)]
  | .loading msg => Json.obj [("status", Json.str "loading"), ("message", Json.str msg)]
  | .warning msg => Json.obj [("status", Json.str "warning"), ("message", Json.str msg)]
  | .ready msg => Json.obj [("status", Json.str "ready"), ("message", Json.str msg)]
  | .listening msg => Json.obj [("status", Json.str "listening"), ("message", Json.str msg)]
  | .pong msg => Json.obj [("status", Json.str "pong"), ("message", Json.str msg)]
  | .success t l c =>
      Json.obj [("status", Json.str "success"), ("text", Json.str t),
        ("language", optionStrToJson l), ("confidence", optionIntToJson c)]
  | .error msg tb =>
      Json.obj
        ([("status", Json.str "error"), ("message", Json.str msg)] ++
          (match tb with
           | some s => [("traceback", Json.str s)]
           | none => []))
  | .shutdown msg => Json.obj [("status", Json.str "shutdown"), ("message", Json.str msg)]
  | .stopped msg => Json.obj [("status", Json.str "stopped"), ("message", Json.str msg)]

/-- Key lookup in a serialized JSON object. -/
def jsonObjLookup (v : Json) (key : String) : Option Json :=
  match v with
  | Json.obj entries => jsonLookup entries key
  | _ => none

/-- Test filesystem: every path exists, is readable and holds two
samples. -/
def okFile : FileSys :=
  ⟨fun _ => true, fun _ => true, fun _ => [0, 1]⟩

/-- Test filesystem with one missing path, one unreadable path, and one
zero-byte path. -/
def threeCaseFs : FileSys :=
  ⟨fun p => p != "/missing", fun p => p != "/locked",
   fun p => if p = "/empty" then [] else [7]⟩

/-- A stub engine whose generation step returns the given result value. -/
def stubModel (r : EngineResult) : Model :=
  ⟨fun a => Except.ok a, fun _ => Except.ok r⟩

/-- A stub engine result carrying a text/language/confidence triple as a
list of result objects (shape (a) of the normalizer). -/
def shapeListOfObjects (t : String) (l : Option String) (c : Option Int) : EngineResult :=
  EngineResult.pylist [⟨some t, none, l, c, t⟩]

/-- The triple as a single object with a `text` attribute (shape (b)). -/
def shapeSingleObject (t : String) (l : Option String) (c : Option Int) : EngineResult :=
  EngineResult.obj ⟨some t, none, l, c, t⟩

/-- The triple as a single object with a `texts` collection of
alternatives and no `text` attribute (shape (c)). -/
def shapeObjectTexts (t : String) (l : Option String) (c : Option Int) : EngineResult :=
  EngineResult.obj ⟨none, some [t], l, c, t⟩

/-- The triple as a mapping with a `text` key (shape (d)). -/
def shapeDictText (t : String) (l : Option String) (c : Option Int) : EngineResult :=
  EngineResult.pydict ⟨some t, none, l, c, t⟩

/-- The triple as a mapping with a `texts` collection and no `text` key
(shape (e)). -/
def shapeDictTexts (t : String) (l : Option String) (c : Option Int) : EngineResult :=
  EngineResult.pydict ⟨none, some [t], l, c, t⟩

/-! Helper lemmas shared by the claim theorems. -/

/-- Every call of the transcription service returns either a success
response or an error response carrying a traceback string: the service
is total and no failure escapes it. -/
theorem transcribe_audio_total (model : Option Model) (fs : FileSys) (p : Json) :
    (∃ t l c, transcribe_audio model fs p = Response.success t l c)
    ∨ (∃ msg tb, transcribe_audio model fs p = Response.error msg (some tb)) := by
  cases model with
  | none => exact Or.inr ⟨"Model not initialized", format_exc "Model not initialized", rfl⟩
  | some m =>
    cases hl : load_raw_pcm fs p with
    | error e =>
      refine Or.inr ⟨e, format_exc e, ?_⟩
      simp [transcribe_audio, hl]
    | ok audio =>
      cases hm : m.get_logmel audio with
      | error e =>
        refine Or.inr ⟨e, format_exc e, ?_⟩
        simp [transcribe_audio, hl, hm]
      | ok mel =>
        cases hg : m.generate mel with
        | error e =>
          refine Or.inr ⟨e, format_exc e, ?_⟩
          simp [transcribe_audio, hl, hm, hg]
        | ok r =>
          cases hx : extract_result r with
          | error e =>
            refine Or.inr ⟨e, format_exc e, ?_⟩
            simp [transcribe_audio, hl, hm, hg, hx]
          | ok v =>
            obtain ⟨t, l, c⟩ := v
            refine Or.inl ⟨pyStrip t, l, c, ?_⟩
            simp [transcribe_audio, hl, hm, hg, hx]

/-- On an unrecognized engine-result shape, the normalizer fails with the
`AttributeError` message of source line 134. -/
theorem extract_result_unrecognized (r : EngineResult) (h : recognizedShape r = false) :
    extract_result r = Except.error ("Cannot extract text from result: " ++ r.pyStr) := by
  cases r with
  | pylist elems =>
    cases elems with
    | nil => rfl
    | cons a as => simp [recognizedShape] at h
  | obj o =>
    obtain ⟨text, texts, lang, conf, srepr⟩ := o
    cases text with
    | some t => simp [recognizedShape] at h
    | none =>
      cases texts with
      | none => rfl
      | some ts =>
        cases ts with
        | nil => rfl
        | cons t ts2 => simp [recognizedShape] at h
  | pydict d =>
    obtain ⟨text, texts, lang, conf, srepr⟩ := d
    cases text with
    | some t => simp [recognizedShape] at h
    | none =>
      cases texts with
      | none => rfl
      | some ts =>
        cases ts with
        | nil => rfl
        | cons t ts2 => simp [recognizedShape] at h
  | other s => rfl

/-- The not-found and unreadable PCM messages differ for all paths: their
first 25 characters already disagree. -/
theorem pcmNotFound_ne_pcmUnreadable (p q : String) : pcmNotFound p ≠ pcmUnreadable q := by
  intro h
  have hd := congrArg String.data h
  simp only [pcmNotFound, pcmUnreadable, String.data_append] at hd
  have ht := congrArg (List.take 25) hd
  rw [List.take_append_of_le_length (by decide),
    List.take_append_of_le_length (by decide)] at ht
  exact absurd ht (by decide)

/-- The not-found and empty-file PCM messages differ for all paths: their
lengths cannot agree. -/
theorem pcmNotFound_ne_pcmEmpty (p : String) : pcmNotFound p ≠ pcmEmpty := by
  intro h
  have hl := congrArg String.length h
  simp only [pcmNotFound, pcmEmpty, String.length_append] at hl
  have h44 : ("Error loading PCM data: PCM file not found: " : String).length = 44 := by decide
  have h41 : ("Error loading PCM data: PCM file is empty" : String).length = 41 := by decide
  rw [h44, h41] at hl
  omega

/-- The unreadable and empty-file PCM messages differ for all paths:
their lengths cannot agree. -/
theorem pcmUnreadable_ne_pcmEmpty (q : String) : pcmUnreadable q ≠ pcmEmpty := by
  intro h
  have hl := congrArg String.length h
  simp only [pcmUnreadable, pcmEmpty, String.length_append] at hl
  have h46 : ("Error loading PCM data: Cannot read PCM file: " : String).length = 46 := by decide
  have h41 : ("Error loading PCM data: PCM file is empty" : String).length = 41 := by decide
  rw [h46, h41] at hl
  omega

/-! The claim theorems. -/

/-- C1: a request line dispatched to the transcription path (decoded
object whose command is neither ping nor shutdown) yields exactly one
response and the loop continues with the remaining lines; the service is
total — it answers either success or an error carrying a traceback — and
any failure of file resolution or PCM reading is converted into an error
response carrying that failure's message and a diagnostic traceback
string; no exception reaches the main loop, so a failed transcription
never terminates the daemon. -/
theorem c1_transcription_failure_contained (m : Model) (fs : FileSys)
    (request : Json) (cmd : Option Json) (rest : List LineRead)
    (hget : Json.get request "command" = Except.ok cmd)
    (hping : optCmdIs cmd "ping" = false)
    (hshut : optCmdIs cmd "shutdown" = false) :
    daemonLoop m fs (LineRead.json request :: rest)
      = process_request (some m) fs request :: daemonLoop m fs rest
    ∧ (∀ p, (∃ t l c, transcribe_audio (some m) fs p = Response.success t l c)
        ∨ (∃ msg tb, transcribe_audio (some m) fs p = Response.error msg (some tb)))
    ∧ (∀ p e, load_raw_pcm fs p = Except.error e →
        transcribe_audio (some m) fs p = Response.error e (some (format_exc e))) := by
  refine ⟨?_, fun p => transcribe_audio_total (some m) fs p, ?_⟩
  · simp [daemonLoop, hget, hping, hshut]
  · intro p e he
    simp [transcribe_audio, he]

/-- Witness for C1: a transcribe request naming a missing PCM file, under
a stub engine, sent to the loop followed by no further lines. -/
theorem c1_transcription_failure_contained_witness :
    daemonLoop (stubModel (EngineResult.other "5")) threeCaseFs
        (LineRead.json (Json.obj [("pcm_path", Json.str "/missing")]) :: [])
      = process_request (some (stubModel (EngineResult.other "5"))) threeCaseFs
          (Json.obj [("pcm_path", Json.str "/missing")])
        :: daemonLoop (stubModel (EngineResult.other "5")) threeCaseFs []
    ∧ (∀ p, (∃ t l c,
          transcribe_audio (some (stubModel (EngineResult.other "5"))) threeCaseFs p
            = Response.success t l c)
        ∨ (∃ msg tb,
          transcribe_audio (some (stubModel (EngineResult.other "5"))) threeCaseFs p
            = Response.error msg (some tb)))
    ∧ (∀ p e, load_raw_pcm threeCaseFs p = Except.error e →
        transcribe_audio (some (stubModel (EngineResult.other "5"))) threeCaseFs p
          = Response.error e (some (format_exc e))) :=
  c1_transcription_failure_contained (stubModel (EngineResult.other "5")) threeCaseFs
    (Json.obj [("pcm_path", Json.str "/missing")]) none [] rfl rfl rfl

/-- C2: when the engine result matches none of the five recognized
shapes, the normalizer raises and the transcription path produces an
error response carrying the normalization failure and a traceback —
never a success response (in particular never one with empty text). -/
theorem c2_unrecognized_shape_is_error (m : Model) (fs : FileSys) (p : Json)
    (audio mel : List Nat) (r : EngineResult)
    (hload : load_raw_pcm fs p = Except.ok audio)
    (hmel : m.get_logmel audio = Except.ok mel)
    (hgen : m.generate mel = Except.ok r)
    (hshape : recognizedShape r = false) :
    transcribe_audio (some m) fs p
      = Response.error ("Cannot extract text from result: " ++ r.pyStr)
          (some (format_exc ("Cannot extract text from result: " ++ r.pyStr)))
    ∧ ∀ t l c, transcribe_audio (some m) fs p ≠ Response.success t l c := by
  have hx := extract_result_unrecognized r hshape
  have h1 : transcribe_audio (some m) fs p
      = Response.error ("Cannot extract text from result: " ++ r.pyStr)
          (some (format_exc ("Cannot extract text from result: " ++ r.pyStr))) := by
    simp [transcribe_audio, hload, hmel, hgen, hx]
  refine ⟨h1, ?_⟩
  intro t l c hc
  rw [h1] at hc
  exact Response.noConfusion hc

/-- Witness for C2: a stub engine returning the integer 5. -/
theorem c2_unrecognized_shape_is_error_witness :
    transcribe_audio (some (stubModel (EngineResult.other "5"))) okFile (Json.str "/a")
      = Response.error ("Cannot extract text from result: " ++ (EngineResult.other "5").pyStr)
          (some (format_exc
            ("Cannot extract text from result: " ++ (EngineResult.other "5").pyStr)))
    ∧ ∀ t l c,
        transcribe_audio (some (stubModel (EngineResult.other "5"))) okFile (Json.str "/a")
          ≠ Response.success t l c :=
  c2_unrecognized_shape_is_error (stubModel (EngineResult.other "5")) okFile (Json.str "/a")
    [0, 1] [0, 1] (EngineResult.other "5") rfl rfl rfl rfl

/-- C3 counterexample: for the triple ("hi", "en", 9) the single-object
shape and the object-with-texts shape do not normalize to an identical
success response — the `texts` branch of the source (line 126) extracts
no language or confidence, so the claim fails as stated. -/
theorem c3_counterexample_shapes_differ :
    transcribe_audio (some (stubModel (shapeSingleObject "hi" (some "en") (some 9))))
        okFile (Json.str "/a")
      ≠ transcribe_audio (some (stubModel (shapeObjectTexts "hi" (some "en") (some 9))))
          okFile (Json.str "/a") := by
  decide

/-- C3 (amended): all five recognized shapes carrying a fixed triple
normalize to a success response with the same trimmed text; the
list-of-objects, single-object and mapping-with-text shapes additionally
carry the engine's language and confidence, while the two `texts` shapes
always yield absent language and confidence — so all five responses are
identical exactly when the engine supplied no language and no
confidence. -/
theorem c3_five_shapes_normalization (t : String) (l : Option String) (c : Option Int) :
    transcribe_audio (some (stubModel (shapeListOfObjects t l c))) okFile (Json.str "/a")
      = Response.success (pyStrip t) l c
    ∧ transcribe_audio (some (stubModel (shapeSingleObject t l c))) okFile (Json.str "/a")
      = Response.success (pyStrip t) l c
    ∧ transcribe_audio (some (stubModel (shapeObjectTexts t l c))) okFile (Json.str "/a")
      = Response.success (pyStrip t) none none
    ∧ transcribe_audio (some (stubModel (shapeDictText t l c))) okFile (Json.str "/a")
      = Response.success (pyStrip t) l c
    ∧ transcribe_audio (some (stubModel (shapeDictTexts t l c))) okFile (Json.str "/a")
      = Response.success (pyStrip t) none none :=
  ⟨rfl, rfl, rfl, rfl, rfl⟩

/-- C4: model initialization attempts the offline load first (on success
the online capability is never consulted and no fallback line is
printed); an offline failure prints a warning and exactly one online
retry follows; when both attempts fail, the daemon prints the fatal
error, exits with status 1, never announces listening, and services no
request (its output does not depend on the input lines). -/
theorem c4_model_init_fallback_and_fatal_exit (e1 e2 : String) (m : Model)
    (onl : Except String Model) (fs : FileSys) (input : List LineRead) :
    initialize_model ⟨Except.ok m, onl⟩
      = ([Response.loading "Loading Parakeet v3 model...",
          Response.ready "Model loaded offline successfully"], some m)
    ∧ initialize_model ⟨Except.error e1, Except.ok m⟩
      = ([Response.loading "Loading Parakeet v3 model...",
          Response.warning ("Offline loading failed: " ++ e1),
          Response.loading "Falling back to online loading...",
          Response.ready "Model loaded online successfully"], some m)
    ∧ run_daemon ⟨Except.error e1, Except.error e2⟩ fs input
      = ([Response.starting "Parakeet daemon starting...",
          Response.loading "Loading Parakeet v3 model...",
          Response.warning ("Offline loading failed: " ++ e1),
          Response.loading "Falling back to online loading...",
          Response.error ("Failed to load model: " ++ e2) none], 1)
    ∧ run_daemon ⟨Except.error e1, Except.error e2⟩ fs input
      = run_daemon ⟨Except.error e1, Except.error e2⟩ fs []
    ∧ ∀ msg, Response.listening msg ∉ (run_daemon ⟨Except.error e1, Except.error e2⟩ fs input).1 := by
  refine ⟨rfl, rfl, rfl, rfl, ?_⟩
  intro msg h
  simp [run_daemon, initialize_model] at h

/-- C5: a decoded request whose command is shutdown makes the loop emit
the shutdown response as its final response — no later input line is
answered — and a daemon whose model loaded emits the stopped line after
the loop's responses and exits with status 0. -/
theorem c5_shutdown_single_response_then_stop (m : Model) (fs : FileSys)
    (request : Json) (cmd : Option Json) (rest : List LineRead)
    (hget : Json.get request "command" = Except.ok cmd)
    (hshut : optCmdIs cmd "shutdown" = true) :
    daemonLoop m fs (LineRead.json request :: rest)
      = [Response.shutdown "Shutting down gracefully"]
    ∧ ∀ (onl : Except String Model) (input : List LineRead),
        run_daemon ⟨Except.ok m, onl⟩ fs input
          = (Response.starting "Parakeet daemon starting..."
              :: Response.loading "Loading Parakeet v3 model..."
              :: Response.ready "Model loaded offline successfully"
              :: Response.listening "Daemon ready for requests"
              :: (daemonLoop m fs input ++ [Response.stopped "Daemon stopped"]), 0) := by
  have hping : optCmdIs cmd "ping" = false := by
    cases cmd with
    | none => rfl
    | some j =>
      cases j with
      | str s =>
        simp [optCmdIs] at hshut
        subst hshut
        rfl
      | null => rfl
      | bool b => rfl
      | num n => rfl
      | arr xs => rfl
      | obj kvs => rfl
  constructor
  · simp [daemonLoop, hget, hping, hshut]
  · intro onl input
    rfl

/-- Witness for C5: the shutdown request followed by a ping line that
must not be answered. -/
theorem c5_shutdown_single_response_then_stop_witness :
    daemonLoop (stubModel (EngineResult.other "5")) okFile
        (LineRead.json (Json.obj [("command", Json.str "shutdown")])
          :: [LineRead.json (Json.obj [("command", Json.str "ping")])])
      = [Response.shutdown "Shutting down gracefully"]
    ∧ ∀ (onl : Except String Model) (input : List LineRead),
        run_daemon ⟨Except.ok (stubModel (EngineResult.other "5")), onl⟩ okFile input
          = (Response.starting "Parakeet daemon starting..."
              :: Response.loading "Loading Parakeet v3 model..."
              :: Response.ready "Model loaded offline successfully"
              :: Response.listening "Daemon ready for requests"
              :: (daemonLoop (stubModel (EngineResult.other "5")) okFile input
                    ++ [Response.stopped "Daemon stopped"]), 0) :=
  c5_shutdown_single_response_then_stop (stubModel (EngineResult.other "5")) okFile
    (Json.obj [("command", Json.str "shutdown")]) (some (Json.str "shutdown"))
    [LineRead.json (Json.obj [("command", Json.str "ping")])] rfl rfl

/-- C6: a transcribe request naming a missing file, one naming an
unreadable file, and one naming a zero-byte file each produce an error
response, and the three failure messages are pairwise distinct. -/
theorem c6_distinct_pcm_file_errors (m : Model) (fs : FileSys) (p1 p2 p3 : String)
    (h1 : fs.pathExists p1 = false)
    (h2e : fs.pathExists p2 = true) (h2r : fs.readable p2 = false)
    (h3e : fs.pathExists p3 = true) (h3r : fs.readable p3 = true)
    (h3z : fs.fromfile p3 = []) :
    transcribe_audio (some m) fs (Json.str p1)
      = Response.error (pcmNotFound p1) (some (format_exc (pcmNotFound p1)))
    ∧ transcribe_audio (some m) fs (Json.str p2)
      = Response.error (pcmUnreadable p2) (some (format_exc (pcmUnreadable p2)))
    ∧ transcribe_audio (some m) fs (Json.str p3)
      = Response.error pcmEmpty (some (format_exc pcmEmpty))
    ∧ pcmNotFound p1 ≠ pcmUnreadable p2
    ∧ pcmNotFound p1 ≠ pcmEmpty
    ∧ pcmUnreadable p2 ≠ pcmEmpty := by
  refine ⟨?_, ?_, ?_, pcmNotFound_ne_pcmUnreadable p1 p2,
    pcmNotFound_ne_pcmEmpty p1, pcmUnreadable_ne_pcmEmpty p2⟩
  · simp [transcribe_audio, load_raw_pcm, h1]
  · simp [transcribe_audio, load_raw_pcm, h2e, h2r]
  · simp [transcribe_audio, load_raw_pcm, h3e, h3r, h3z]

/-- Witness for C6: the three-case test filesystem with its missing,
unreadable and empty paths. -/
theorem c6_distinct_pcm_file_errors_witness :
    transcribe_audio (some (stubModel (EngineResult.other "5"))) threeCaseFs
        (Json.str "/missing")
      = Response.error (pcmNotFound "/missing") (some (format_exc (pcmNotFound "/missing")))
    ∧ transcribe_audio (some (stubModel (EngineResult.other "5"))) threeCaseFs
        (Json.str "/locked")
      = Response.error (pcmUnreadable "/locked") (some (format_exc (pcmUnreadable "/locked")))
    ∧ transcribe_audio (some (stubModel (EngineResult.other "5"))) threeCaseFs
        (Json.str "/empty")
      = Response.error pcmEmpty (some (format_exc pcmEmpty))
    ∧ pcmNotFound "/missing" ≠ pcmUnreadable "/locked"
    ∧ pcmNotFound "/missing" ≠ pcmEmpty
    ∧ pcmUnreadable "/locked" ≠ pcmEmpty :=
  c6_distinct_pcm_file_errors (stubModel (EngineResult.other "5")) threeCaseFs
    "/missing" "/locked" "/empty" rfl rfl rfl rfl rfl rfl

/-- C7: a decoded transcribe request (an object whose command is neither
ping nor shutdown) lacking the pcm_path key is answered with the error
response naming the missing field; the answer does not depend on the
filesystem (no filesystem access), and the loop emits it and continues
with the remaining lines — no crash. -/
theorem c7_missing_pcm_path_error (model : Option Model) (fs fs2 : FileSys) (m : Model)
    (entries : List (String × Json)) (rest : List LineRead)
    (hmiss : entries.any (fun kv => kv.1 == "pcm_path") = false)
    (hping : optCmdIs (jsonLookup entries "command") "ping" = false)
    (hshut : optCmdIs (jsonLookup entries "command") "shutdown" = false) :
    process_request model fs (Json.obj entries)
      = Response.error "Missing 'pcm_path' in request" none
    ∧ process_request model fs (Json.obj entries)
      = process_request model fs2 (Json.obj entries)
    ∧ daemonLoop m fs (LineRead.json (Json.obj entries) :: rest)
      = Response.error "Missing 'pcm_path' in request" none :: daemonLoop m fs rest := by
  have hp : ∀ (mo : Option Model) (fsx : FileSys),
      process_request mo fsx (Json.obj entries)
        = Response.error "Missing 'pcm_path' in request" none := by
    intro mo fsx
    simp [process_request, jsonContains, hmiss]
  refine ⟨hp model fs, (hp model fs).trans (hp model fs2).symm, ?_⟩
  simp [daemonLoop, Json.get, hping, hshut, hp (some m) fs]

/-- Witness for C7: the empty request object. -/
theorem c7_missing_pcm_path_error_witness :
    process_request (some (stubModel (EngineResult.other "5"))) okFile (Json.obj [])
      = Response.error "Missing 'pcm_path' in request" none
    ∧ process_request (some (stubModel (EngineResult.other "5"))) okFile (Json.obj [])
      = process_request (some (stubModel (EngineResult.other "5"))) threeCaseFs (Json.obj [])
    ∧ daemonLoop (stubModel (EngineResult.other "5")) okFile
        (LineRead.json (Json.obj []) :: [])
      = Response.error "Missing 'pcm_path' in request" none
          :: daemonLoop (stubModel (EngineResult.other "5")) okFile [] :=
  c7_missing_pcm_path_error (some (stubModel (EngineResult.other "5"))) okFile threeCaseFs
    (stubModel (EngineResult.other "5")) [] [] rfl rfl rfl

/-- C8: a non-whitespace line that fails to decode is answered with an
error response whose message identifies the decode failure, and the loop
continues — a subsequent valid line (here a ping) still receives its
normal response. -/
theorem c8_invalid_json_line_recovers (m : Model) (fs : FileSys) (e : String)
    (rest : List LineRead) :
    daemonLoop m fs (LineRead.badJson e :: rest)
      = Response.error ("Invalid JSON: " ++ e) none :: daemonLoop m fs rest
    ∧ daemonLoop m fs
        [LineRead.badJson e, LineRead.json (Json.obj [("command", Json.str "ping")])]
      = [Response.error ("Invalid JSON: " ++ e) none, Response.pong "Daemon is alive"] :=
  ⟨rfl, rfl⟩

/-- C9: every success response of the transcription path serializes with
the keys language and confidence present; when the engine supplied
neither, the keys hold null rather than being omitted. -/
theorem c9_success_serializes_null_fields (model : Option Model) (fs : FileSys) (p : Json)
    (t : String) (l : Option String) (c : Option Int)
    (h : transcribe_audio model fs p = Response.success t l c) :
    jsonObjLookup ((transcribe_audio model fs p).toJson) "language"
      = some (optionStrToJson l)
    ∧ jsonObjLookup ((transcribe_audio model fs p).toJson) "confidence"
      = some (optionIntToJson c)
    ∧ (l = none →
        jsonObjLookup ((transcribe_audio model fs p).toJson) "language" = some Json.null)
    ∧ (c = none →
        jsonObjLookup ((transcribe_audio model fs p).toJson) "confidence" = some Json.null) := by
  rw [h]
  refine ⟨rfl, rfl, ?_, ?_⟩
  · rintro rfl
    rfl
  · rintro rfl
    rfl

/-- Witness for C9: a stub engine returning a mapping with only a text
key, so the service supplies neither language nor confidence. -/
theorem c9_success_serializes_null_fields_witness :
    jsonObjLookup ((transcribe_audio (some (stubModel (shapeDictText "hi" none none)))
        okFile (Json.str "/a")).toJson) "language"
      = some (optionStrToJson none)
    ∧ jsonObjLookup ((transcribe_audio (some (stubModel (shapeDictText "hi" none none)))
        okFile (Json.str "/a")).toJson) "confidence"
      = some (optionIntToJson none)
    ∧ ((none : Option String) = none →
        jsonObjLookup ((transcribe_audio (some (stubModel (shapeDictText "hi" none none)))
          okFile (Json.str "/a")).toJson) "language" = some Json.null)
    ∧ ((none : Option Int) = none →
        jsonObjLookup ((transcribe_audio (some (stubModel (shapeDictText "hi" none none)))
          okFile (Json.str "/a")).toJson) "confidence" = some Json.null) :=
  c9_success_serializes_null_fields (some (stubModel (shapeDictText "hi" none none)))
    okFile (Json.str "/a") "hi" none none (by decide)

/-- C10: a decoded line that is valid JSON but not an object does not
crash the daemon: the command lookup on it raises, the iteration's
catch-all converts the exception into an error response (message and
traceback), and the loop continues with the remaining lines. -/
theorem c10_non_object_request_no_crash (m : Model) (fs : FileSys) (v : Json)
    (rest : List LineRead) (hv : v.isObj = false) :
    ∃ e, Json.get v "command" = Except.error e
      ∧ daemonLoop m fs (LineRead.json v :: rest)
        = Response.error ("Daemon error: " ++ e) (some (format_exc e))
            :: daemonLoop m fs rest := by
  cases v with
  | obj entries => simp [Json.isObj] at hv
  | null => exact ⟨_, rfl, rfl⟩
  | bool b => exact ⟨_, rfl, rfl⟩
  | num n => exact ⟨_, rfl, rfl⟩
  | str s => exact ⟨_, rfl, rfl⟩
  | arr xs => exact ⟨_, rfl, rfl⟩

/-- Witness for C10: the decoded line holding the integer 5. -/
theorem c10_non_object_request_no_crash_witness :
    ∃ e, Json.get (Json.num 5) "command" = Except.error e
      ∧ daemonLoop (stubModel (EngineResult.other "5")) okFile
          (LineRead.json (Json.num 5) :: [])
        = Response.error ("Daemon error: " ++ e) (some (format_exc e))
            :: daemonLoop (stubModel (EngineResult.other "5")) okFile [] :=
  c10_non_object_request_no_crash (stubModel (EngineResult.other "5")) okFile
    (Json.num 5) [] rfl

end Parakeet
